import Mathlib

/-!
Shallow embedding of the watchthefall-orchestrator video-processing pipeline:
`src/portal/processor.py` (process_video) and `src/portal/app.py`
(fetch_videos_from_urls). Logging and stdout printing are omitted; the
observable behaviour is captured as an ordered trace of job-status writes
and subprocess spawns, plus the return value.
-/

/-- Job status values stored in the job record store. -/
inductive Status where
  | queued
  | processing
  | completed
  | failed
deriving DecidableEq

/-- True on a terminal status (completed or failed). -/
def Status.isTerminal : Status → Bool
  | .completed => true
  | .failed => true
  | _ => false

/-- One step of the ffmpeg filter graph built by process_video
(lines 69-85 of processor.py). Watermark geometry numbers are computed
with Python float arithmetic in the source and are not modelled. -/
inductive FilterStep where
  | scalePad (w h : Nat)
  | templateOverlay (w h : Nat)
  | watermarkOverlay (path : String)
deriving DecidableEq

/-- Observable side effects of one process_video run, in program order. -/
inductive Event where
  | statusWrite (s : Status) (output_path error_message : Option String)
  | spawn (filters : List FilterStep)
deriving DecidableEq

/-- Outcome of the ffmpeg subprocess: either process.wait(timeout=600)
raises TimeoutExpired, or the process exits with a return code after
producing the given stderr lines (processor.py lines 110-125). -/
inductive FfmpegOutcome where
  | timeout
  | exited (code : Int) (stderrLines : List String)
deriving DecidableEq

/-- The world a single process_video run executes against.
`psutilMem = none` models the psutil import failing (processor.py lines 7-10);
`listdir` models os.listdir of the watermark directory, with `.error`
for a raised OSError; `fsExists`/`fsSize` model the filesystem as seen
by the existence checks and by the claims about output size;
`ffmpeg` models the subprocess outcome. -/
structure Env where
  psutilMem : Option Nat
  listdir : Except String (List String)
  fsExists : String → Bool
  fsSize : String → Nat
  ffmpeg : FfmpegOutcome

/-- Result of one process_video run: its event trace and returned value. -/
structure RunResult where
  events : List Event
  ret : Option String
deriving DecidableEq

/-- Modelled from the spec: configuration value template_dir (spec 9,
config.py is not under src/); the concrete path is deployment config. -/
def TEMPLATE_DIR : String := "templates"

/-- Modelled from the spec: configuration value output_dir (spec 9,
config.py is not under src/); the concrete path is deployment config. -/
def OUTPUT_DIR : String := "output"

/-- Watermark directory, os.path.join(TEMPLATE_DIR, "watermarks")
(processor.py line 45). -/
def WATERMARK_DIR : String := TEMPLATE_DIR ++ "/watermarks"

/-- ASCII lowering of one character, modelling Python str.lower on the
ASCII range used by template and file names. -/
def pyLowerChar (c : Char) : Char :=
  if 'A' ≤ c ∧ c ≤ 'Z' then Char.ofNat (c.toNat + 32) else c

/-- Python str.lower, ASCII range. -/
def pyLower (s : String) : String := ⟨s.data.map pyLowerChar⟩

/-- Does `hay` start with `needle`? -/
def listStartsWith : List Char → List Char → Bool
  | _, [] => true
  | [], _ :: _ => false
  | c :: cs, d :: ds => c == d && listStartsWith cs ds

/-- Python substring containment `needle in hay`. -/
def listContainsSeq : List Char → List Char → Bool
  | [], needle => needle.isEmpty
  | c :: rest, needle => listStartsWith (c :: rest) needle || listContainsSeq rest needle

/-- Python s.replace("wtf", ""): one left-to-right pass removing every
occurrence of "wtf" (processor.py line 48 applies it to the lowered name). -/
def stripAllWtf : List Char → List Char
  | [] => []
  | 'w' :: 't' :: 'f' :: rest => stripAllWtf rest
  | c :: rest => c :: stripAllWtf rest

/-- String version of `stripAllWtf`. -/
def stripAllWtfStr (s : String) : String := ⟨stripAllWtf s.data⟩

/-- Python s.strip(): drop leading and trailing whitespace. -/
def pyStrip (s : String) : String :=
  ⟨((s.data.dropWhile Char.isWhitespace).reverse.dropWhile Char.isWhitespace).reverse⟩

/-- Python s[:n]: keep the first n characters. -/
def pySlice (s : String) (n : Nat) : String := ⟨s.data.take n⟩

/-- Watermark resolution (processor.py lines 47-50): first file of the
directory listing whose lowered name contains the lowered template name
with every "wtf" removed; joined onto the watermark directory. -/
def findWatermark (template_name : String) (listing : List String) : Option String :=
  (listing.find? (fun wm_file =>
      listContainsSeq (pyLower wm_file).data (stripAllWtfStr (pyLower template_name)).data)).map
    (fun wm_file => WATERMARK_DIR ++ "/" ++ wm_file)

/-- Target canvas from the aspect-ratio string (processor.py lines 59-66). -/
def targetDims (aspect_ratio : String) : Nat × Nat :=
  if aspect_ratio = "9:16" then (1080, 1920)
  else if aspect_ratio = "1:1" then (1080, 1080)
  else if aspect_ratio = "16:9" then (1920, 1080)
  else (1080, 1920)

/-- Output file basename f-string (processor.py line 53). -/
def outputFilename (template_name job_id : String) : String :=
  template_name ++ "_" ++ job_id ++ ".mp4"

/-- Full output path, os.path.join(OUTPUT_DIR, output_filename)
(processor.py line 54). -/
def outputPathOf (template_name job_id : String) : String :=
  OUTPUT_DIR ++ "/" ++ outputFilename template_name job_id

/-- The MemoryError message raised by the RAM guard (processor.py line 33). -/
def memErrMsg : String :=
  "Not enough RAM for safe processing on Render free tier (< 100MB available)"

/-- The str() of the TimeoutExpired raised by process.wait(timeout=600)
(processor.py line 125). The Python text also embeds the full command;
no claim depends on it, so it is modelled as fixed text. -/
def timeoutMsg : String := "Command ffmpeg timed out after 600 seconds"

/-- The processing status write (processor.py line 36). -/
def procWrite : Event := .statusWrite .processing none none

/-- A failed status write with the given error message
(processor.py line 149). -/
def failWrite (msg : String) : Event := .statusWrite .failed none (some msg)

/-- Does the RAM guard (processor.py lines 29-33) raise MemoryError? -/
def ramGuardTrips (env : Env) : Bool :=
  match env.psutilMem with
  | some avail => avail < 100 * 1024 * 1024
  | none => false

/-- Does the watermark lookup raise (os.listdir failing), given that it
only runs when template_name is truthy (processor.py lines 44-47)? -/
def listdirRaises (env : Env) (template_name : String) : Bool :=
  template_name ≠ "" &&
    (match env.listdir with
     | .ok _ => false
     | .error _ => true)

/-- stderr filtering loop (processor.py lines 118-122): keep the stripped
form of every line whose lowered text contains "error" or "failed". -/
def stderrErrors (lines : List String) : List String :=
  lines.filterMap (fun line =>
    if listContainsSeq (pyLower line).data "error".data
        || listContainsSeq (pyLower line).data "failed".data
    then some (pyStrip line) else none)

/-- The error message stored when ffmpeg exits non-zero
(processor.py lines 129-131): "FFmpeg failed: " plus the first 200
characters of the newline-join of the first five retained stderr lines. -/
def ffmpegFailMsg (lines : List String) : String :=
  let errs := stderrErrors lines
  let error_msg := if errs.isEmpty then "FFmpeg failed"
                   else String.intercalate "\n" (errs.take 5)
  "FFmpeg failed: " ++ pySlice error_msg 200

/-- Body of process_video after the RAM guard passed (processor.py
lines 35-141), returning the events emitted inside the try block and
either the raised exception message or the returned filename. -/
def process_video_afterGuard (env : Env) (job_id video_path template_name aspect_ratio :
    String) : List Event × Except String String :=
  let template_path := TEMPLATE_DIR ++ "/template.png"
  let wmLookup : Except String (Option String) :=
    if template_name ≠ "" then
      match env.listdir with
      | .error e => .error e
      | .ok listing => .ok (findWatermark template_name listing)
    else .ok none
  match wmLookup with
  | .error e => ([procWrite], .error e)
  | .ok watermark_path =>
    let output_filename := outputFilename template_name job_id
    let output_path := outputPathOf template_name job_id
    let dims := targetDims aspect_ratio
    let filters : List FilterStep :=
      [FilterStep.scalePad dims.1 dims.2]
      ++ (if env.fsExists template_path then [FilterStep.templateOverlay dims.1 dims.2]
          else [])
      ++ (match watermark_path with
          | some p => if env.fsExists p then [FilterStep.watermarkOverlay p] else []
          | none => [])
    match env.ffmpeg with
    | .timeout => ([procWrite, .spawn filters], .error timeoutMsg)
    | .exited code lines =>
      if code ≠ 0 then
        ([procWrite, .spawn filters], .error (ffmpegFailMsg lines))
      else if ¬ env.fsExists output_path then
        ([procWrite, .spawn filters], .error "Output file not created")
      else
        ([procWrite, .spawn filters,
          .statusWrite .completed (some output_filename) none],
         .ok output_filename)

/-- The try block of process_video (processor.py lines 27-141): RAM guard
first (only when psutil imported), then the rest of the body. -/
def process_video_try (env : Env) (job_id video_path template_name aspect_ratio :
    String) : List Event × Except String String :=
  match env.psutilMem with
  | some avail =>
    if avail < 100 * 1024 * 1024 then ([], .error memErrMsg)
    else process_video_afterGuard env job_id video_path template_name aspect_ratio
  | none => process_video_afterGuard env job_id video_path template_name aspect_ratio

/-- process_video (processor.py lines 14-150): the try body, with the
blanket except handler writing a failed status with str(e) and
returning None. -/
def process_video (env : Env) (job_id video_path template_name aspect_ratio :
    String) : RunResult :=
  match process_video_try env job_id video_path template_name aspect_ratio with
  | (evs, .ok fname) => { events := evs, ret := some fname }
  | (evs, .error e) => { events := evs ++ [failWrite e], ret := none }

/-- True on an event that writes a terminal status. -/
def isTerminalWrite : Event → Bool
  | .statusWrite s _ _ => s.isTerminal
  | _ => false

/-- The durable job record (status plus terminal fields). Other columns
(source filename, template, aspect ratio, created_at) are immutable after
creation and not needed by the claims. -/
structure Job where
  status : Status
  output_path : Option String
  error_message : Option String
deriving DecidableEq

/-- Modelled from the spec: database.py is not under src/. create persists
a queued job with no output reference and no error message (spec 4.1, 4.5:
"persists a queued Job synchronously"; data model: output_path and
error_message absent until a terminal transition). -/
def create_job : Job := ⟨.queued, none, none⟩

/-- Modelled from the spec: database.py is not under src/.
update_status(job_id, status, output_path?, error_message?) (spec 4.1)
sets the status and the provided optional fields, leaving an absent
optional field unchanged. -/
def update_job_status (j : Job) (s : Status) (o e : Option String) : Job :=
  { status := s,
    output_path := match o with | some v => some v | none => j.output_path,
    error_message := match e with | some v => some v | none => j.error_message }

/-- Apply one trace event to the stored job record. -/
def applyEvent (j : Job) : Event → Job
  | .statusWrite s o e => update_job_status j s o e
  | .spawn _ => j

/-- Fold a run trace over the freshly created job record. -/
def runJob (evs : List Event) : Job := evs.foldl applyEvent create_job

/-- One entry of the JSON results array built by download_one
(app.py lines 145-183). The float size_mb field is omitted. -/
structure FetchItem where
  url : String
  success : Bool
  filename : Option String
  download_url : Option String
  error : Option String
deriving DecidableEq

/-- The world fetch_videos_from_urls executes against. `download` models
the yt-dlp extract_info/prepare_filename pair inside the with-block
(app.py lines 156-159): the raised exception message, or the prepared
local filename. `ytdlpAvailable` models the import at app.py lines 12-15. -/
structure FetchEnv where
  ytdlpAvailable : Bool
  download : String → Except String String

/-- Does `s` end with `tail`? -/
def strEndsWith (s tail : String) : Bool :=
  listStartsWith s.data.reverse tail.data.reverse

/-- Index of the last occurrence of `c` in `l`, if any. -/
def lastIdxOf (c : Char) (l : List Char) : Option Nat :=
  match l.reverse.findIdx? (· == c) with
  | some j => some (l.length - 1 - j)
  | none => none

/-- Python os.path.basename for "/"-separated paths. -/
def pyBasename (p : String) : String :=
  match lastIdxOf '/' p.data with
  | none => p
  | some i => ⟨p.data.drop (i + 1)⟩

/-- Python os.path.splitext, root component: drop the extension, the part
from the last dot that lies inside the basename and is preceded there by
some non-dot character. -/
def pySplitextRoot (p : String) : String :=
  let chars := p.data
  match lastIdxOf '.' chars with
  | none => p
  | some d =>
    let start := match lastIdxOf '/' chars with
      | some i => i + 1
      | none => 0
    if start ≤ d ∧ ((List.range (d - start)).any
        (fun k => chars.getD (start + k) '.' ≠ '.')) then
      ⟨chars.take d⟩
    else p

/-- download_one (app.py lines 145-183): run the downloader, force a
".mp4" extension, and record success or the per-URL error. -/
def download_one (env : FetchEnv) (url_input : String) : FetchItem :=
  match env.download url_input with
  | .error e =>
    { url := url_input, success := false, filename := none,
      download_url := none, error := some e }
  | .ok fname0 =>
    let filename := if strEndsWith fname0 ".mp4" then fname0
                    else pySplitextRoot fname0 ++ ".mp4"
    let name := pyBasename filename
    { url := url_input, success := true, filename := some name,
      download_url := some ("/api/videos/download/" ++ name), error := none }

/-- The HTTP-level outcome of the fetch endpoint: an early rejection with
an HTTP status code, or the success payload. -/
inductive FetchResponse where
  | rejected (httpStatus : Nat) (error : String)
  | ok (total successful : Nat) (results : List FetchItem)
deriving DecidableEq

/-- fetch_videos_from_urls (app.py lines 126-198). `urlsField = none`
models a request whose "urls" field is missing or not a list. Returns the
response together with the list of URLs for which a download was
attempted, in order. -/
def fetch_videos_from_urls (env : FetchEnv) (urlsField : Option (List String)) :
    FetchResponse × List String :=
  if ¬ env.ytdlpAvailable then (.rejected 500 "yt-dlp not installed", [])
  else
    match urlsField with
    | none =>
      (.rejected 400 "Provide JSON: \x7b\"urls\": [\"url1\", \"url2\", ...]\x7d", [])
    | some urls =>
      if urls.length = 0 then
        (.rejected 400 "Provide JSON: \x7b\"urls\": [\"url1\", \"url2\", ...]\x7d", [])
      else if urls.length > 5 then
        (.rejected 400 "Maximum 5 URLs at a time (Render free tier limit)", [])
      else
        let results := urls.map (download_one env)
        (.ok urls.length (results.filter (·.success)).length results, urls)

/-- The watermark-name normalization as the specification words it
(spec 4.3): the lowered template name with the suffix "wtf" stripped —
only a trailing occurrence is removed. Stated for comparison against the
source-derived `findWatermark`. -/
def specNormalizeTemplate (template_name : String) : String :=
  let l := pyLower template_name
  if strEndsWith l "wtf" then ⟨l.data.take (l.data.length - 3)⟩ else l

/-- Watermark resolution as the specification words it: case-insensitive
substring match of the suffix-stripped name, first match wins. -/
def specFindWatermark (template_name : String) (listing : List String) : Option String :=
  (listing.find? (fun wm_file =>
      listContainsSeq (pyLower wm_file).data (specNormalizeTemplate template_name).data)).map
    (fun wm_file => WATERMARK_DIR ++ "/" ++ wm_file)

/-- The watermark path process_video resolves, or none (truthiness guard,
directory listing, first-match lookup). -/
def wmPathOf (env : Env) (template_name : String) : Option String :=
  if template_name ≠ "" then
    match env.listdir with
    | .ok listing => findWatermark template_name listing
    | .error _ => none
  else none

/-- The filter graph process_video builds, as a function of the resolved
assets and the aspect ratio. -/
def filtersOf (env : Env) (template_name aspect_ratio : String) : List FilterStep :=
  let dims := targetDims aspect_ratio
  [FilterStep.scalePad dims.1 dims.2]
  ++ (if env.fsExists (TEMPLATE_DIR ++ "/template.png") then
        [FilterStep.templateOverlay dims.1 dims.2]
      else [])
  ++ (match wmPathOf env template_name with
      | some p => if env.fsExists p then [FilterStep.watermarkOverlay p] else []
      | none => [])

/-- The message of the OSError raised by os.listdir, when it raises. -/
def listdirErr (env : Env) : String :=
  match env.listdir with
  | .error e => e
  | .ok _ => ""

/-- The sequence of status values written over a run, in order. -/
def statusesOf (evs : List Event) : List Status :=
  evs.filterMap (fun e =>
    match e with
    | .statusWrite s _ _ => some s
    | .spawn _ => none)

set_option maxHeartbeats 2000000 in
/-- Closed-form characterization of process_video: the complete case split
every claim proof works from. -/
theorem process_video_eq (env : Env) (j v t a : String) :
    process_video env j v t a =
      if ramGuardTrips env then ⟨[failWrite memErrMsg], none⟩
      else if listdirRaises env t then
        ⟨[procWrite, failWrite (listdirErr env)], none⟩
      else
        match env.ffmpeg with
        | .timeout => ⟨[procWrite, .spawn (filtersOf env t a), failWrite timeoutMsg], none⟩
        | .exited code lines =>
          if code ≠ 0 then
            ⟨[procWrite, .spawn (filtersOf env t a), failWrite (ffmpegFailMsg lines)], none⟩
          else if ¬ env.fsExists (outputPathOf t j) then
            ⟨[procWrite, .spawn (filtersOf env t a),
              failWrite "Output file not created"], none⟩
          else
            ⟨[procWrite, .spawn (filtersOf env t a),
              .statusWrite .completed (some (outputFilename t j)) none],
             some (outputFilename t j)⟩ := by
  obtain ⟨pm, ld, fse, fss, ff⟩ := env
  cases pm <;> cases ld <;> cases ff <;> by_cases ht : t = "" <;>
    simp only [process_video, process_video_try, process_video_afterGuard,
      ramGuardTrips, listdirRaises, wmPathOf, filtersOf, listdirErr, ht] <;>
    split_ifs <;>
    (try simp_all [outputFilename, outputPathOf]) <;>
    (try omega)

/-- C5: The aspect-ratio-to-dimensions mapping is a total deterministic
function on strings: "9:16" yields a 1080×1920 canvas, "1:1" yields
1080×1080, "16:9" yields 1920×1080, and every other input yields the same
dimensions as "9:16". -/
theorem c5_aspect_ratio_mapping :
    targetDims "9:16" = (1080, 1920) ∧
    targetDims "1:1" = (1080, 1080) ∧
    targetDims "16:9" = (1920, 1080) ∧
    ∀ s : String, s ≠ "9:16" → s ≠ "1:1" → s ≠ "16:9" →
      targetDims s = (1080, 1920) := by
  refine ⟨rfl, rfl, rfl, fun s h1 h2 h3 => ?_⟩
  simp [targetDims, h1, h2, h3]

/-- C5 witness: the fallback branch at the unrecognized input "4:3". -/
theorem c5_aspect_ratio_mapping_witness :
    targetDims "4:3" = (1080, 1920) :=
  c5_aspect_ratio_mapping.2.2.2 "4:3" (by decide) (by decide) (by decide)

/-- C4: a job executed with available memory below the 100MB hard floor
is failed with the descriptive MemoryError message, and the transcode
subprocess is never spawned. -/
theorem c4_low_memory_fails_without_spawn
    (env : Env) (j v t a : String) (m : Nat)
    (hm : env.psutilMem = some m) (hlow : m < 100 * 1024 * 1024) :
    process_video env j v t a = ⟨[failWrite memErrMsg], none⟩ ∧
    ∀ fs, Event.spawn fs ∉ (process_video env j v t a).events := by
  have hg : ramGuardTrips env = true := by simp [ramGuardTrips, hm, hlow]
  have he : process_video env j v t a = ⟨[failWrite memErrMsg], none⟩ := by
    rw [process_video_eq]; simp [hg]
  refine ⟨he, fun fs => ?_⟩
  rw [he]
  simp [failWrite]

/-- C4 witness: a concrete environment with 0 bytes available. -/
theorem c4_low_memory_fails_without_spawn_witness :
    process_video ⟨some 0, .ok [], fun _ => false, fun _ => 0, .timeout⟩
      "j" "v" "T" "9:16" = ⟨[failWrite memErrMsg], none⟩ :=
  (c4_low_memory_fails_without_spawn _ "j" "v" "T" "9:16" 0 rfl (by decide)).1

/-- C1 counterexample: a run whose transcoder exits 0 and whose output
file exists with size 0 (at most 1000 bytes) is marked completed — its
trace holds no failed write at all — because processor.py checks only
existence, never size. -/
theorem c1_counterexample_empty_output_completed :
    (⟨none, .ok [], (· == "output/T_j.mp4"), fun _ => 0,
        .exited 0 []⟩ : Env).fsSize (outputPathOf "T" "j") ≤ 1000 ∧
    process_video ⟨none, .ok [], (· == "output/T_j.mp4"), fun _ => 0, .exited 0 []⟩
        "j" "v" "T" "9:16" =
      ⟨[procWrite, .spawn [.scalePad 1080 1920],
        .statusWrite .completed (some "T_j.mp4") none], some "T_j.mp4"⟩ ∧
    (process_video ⟨none, .ok [], (· == "output/T_j.mp4"), fun _ => 0, .exited 0 []⟩
        "j" "v" "T" "9:16").events.filter isTerminalWrite =
      [.statusWrite .completed (some "T_j.mp4") none] := by decide

/-- C1 (amended): after an exit-0 transcoder run (guard passed, watermark
listing did not raise), the job is completed exactly when the output file
exists — no size threshold is checked — and a missing output yields
failed with the message "Output file not created", which does not mention
a low-memory kill. -/
theorem c1_amended_exit0_verification
    (env : Env) (j v t a : String) (lines : List String)
    (hg : ramGuardTrips env = false) (hl : listdirRaises env t = false)
    (hf : env.ffmpeg = .exited 0 lines) :
    (env.fsExists (outputPathOf t j) = true →
      process_video env j v t a =
        ⟨[procWrite, .spawn (filtersOf env t a),
          .statusWrite .completed (some (outputFilename t j)) none],
         some (outputFilename t j)⟩) ∧
    (env.fsExists (outputPathOf t j) = false →
      process_video env j v t a =
        ⟨[procWrite, .spawn (filtersOf env t a),
          failWrite "Output file not created"], none⟩) := by
  constructor <;> intro h <;> rw [process_video_eq] <;> simp [hg, hl, hf, h]

/-- C1 amended witness: exit 0 with an existing (size-0) output file. -/
theorem c1_amended_exit0_verification_witness :
    process_video ⟨none, .ok [], (· == "output/T2_j.mp4"), fun _ => 0, .exited 0 []⟩
        "j" "v" "T2" "9:16" =
      ⟨[procWrite,
        .spawn (filtersOf ⟨none, .ok [], (· == "output/T2_j.mp4"), fun _ => 0,
          .exited 0 []⟩ "T2" "9:16"),
        .statusWrite .completed (some (outputFilename "T2" "j")) none],
       some (outputFilename "T2" "j")⟩ :=
  (c1_amended_exit0_verification _ "j" "v" "T2" "9:16" []
    (by decide) (by decide) rfl).1 (by decide)

/-- C3 counterexample: with available memory below the floor, the run
ends in a terminal failed write while no processing write ever happened —
the memory check precedes the transition to processing, so this terminal
job never passed through processing. -/
theorem c3_counterexample_failed_without_processing :
    (process_video ⟨some 1, .ok [], fun _ => false, fun _ => 0, .exited 0 []⟩
        "j" "v" "T" "9:16").events = [failWrite memErrMsg] ∧
    isTerminalWrite (failWrite memErrMsg) = true ∧
    procWrite ∉ (process_video ⟨some 1, .ok [], fun _ => false, fun _ => 0,
        .exited 0 []⟩ "j" "v" "T" "9:16").events := by decide

/-- C3 (amended): the Resource Guard check runs before the status is set
to processing. A run that trips the guard writes failed directly
(queued → failed, never entering processing); every other run writes
processing first and then exactly one terminal status, strictly forward. -/
theorem c3_amended_guard_precedes_processing
    (env : Env) (j v t a : String) :
    (ramGuardTrips env = true →
      statusesOf (process_video env j v t a).events = [.failed]) ∧
    (ramGuardTrips env = false →
      statusesOf (process_video env j v t a).events = [.processing, .completed] ∨
      statusesOf (process_video env j v t a).events = [.processing, .failed]) := by
  constructor <;> intro hg <;> rw [process_video_eq] <;> simp [hg]
  · simp [statusesOf, failWrite]
  · by_cases hl : listdirRaises env t = true
    · simp [hl, statusesOf, procWrite, failWrite]
    · simp only [Bool.not_eq_true] at hl
      cases hff : env.ffmpeg with
      | timeout => simp [hl, statusesOf, procWrite, failWrite]
      | exited code lines =>
        simp only [hl, Bool.false_eq_true, if_false]
        split_ifs <;> simp [statusesOf, procWrite, failWrite]

/-- C3 amended witness: the guard-tripping branch at a concrete
low-memory environment. -/
theorem c3_amended_guard_precedes_processing_witness :
    statusesOf (process_video ⟨some 2, .ok [], fun _ => false, fun _ => 0,
      .exited 0 []⟩ "j" "v" "T" "9:16").events = [.failed] :=
  (c3_amended_guard_precedes_processing _ "j" "v" "T" "9:16").1 (by decide)

/-- C2: every process_video run ends in exactly one terminal status
write, placed last in the trace — every exit path (resource exhaustion,
resolver exception, engine failure, missing output, timeout) converts its
failure into a failed write instead of leaving the job in processing;
the model is a total function, so nothing is re-raised to the caller. -/
theorem c2_single_terminal_write (env : Env) (j v t a : String) :
    ((process_video env j v t a).events.filter isTerminalWrite).length = 1 ∧
    (∃ w, (process_video env j v t a).events.getLast? = some w ∧
      isTerminalWrite w = true) := by
  rw [process_video_eq]
  by_cases hg : ramGuardTrips env = true
  · simp [hg, isTerminalWrite, failWrite, Status.isTerminal]
  · simp only [Bool.not_eq_true] at hg
    by_cases hl : listdirRaises env t = true
    · simp [hg, hl, isTerminalWrite, procWrite, failWrite, Status.isTerminal]
    · simp only [Bool.not_eq_true] at hl
      cases hff : env.ffmpeg with
      | timeout =>
        simp [hg, hl, isTerminalWrite, procWrite, failWrite, Status.isTerminal]
      | exited code lines =>
        simp only [hg, hl, Bool.false_eq_true, if_false]
        split_ifs <;>
          simp [isTerminalWrite, procWrite, failWrite, Status.isTerminal]

/-- C6: once a run's trace is folded over a freshly created job record,
the terminal record populates exactly one of output_path and
error_message: completed jobs carry an output reference and no error,
failed jobs carry an error and no output reference. -/
theorem c6_terminal_exclusivity (env : Env) (j v t a : String) :
    (runJob (process_video env j v t a).events).status = .completed ∧
      ((runJob (process_video env j v t a).events).output_path).isSome = true ∧
      (runJob (process_video env j v t a).events).error_message = none ∨
    (runJob (process_video env j v t a).events).status = .failed ∧
      ((runJob (process_video env j v t a).events).error_message).isSome = true ∧
      (runJob (process_video env j v t a).events).output_path = none := by
  rw [process_video_eq]
  by_cases hg : ramGuardTrips env = true
  · simp [hg, runJob, applyEvent, update_job_status, create_job, failWrite]
  · simp only [Bool.not_eq_true] at hg
    by_cases hl : listdirRaises env t = true
    · simp [hg, hl, runJob, applyEvent, update_job_status, create_job,
        procWrite, failWrite]
    · simp only [Bool.not_eq_true] at hl
      cases hff : env.ffmpeg with
      | timeout =>
        simp [hg, hl, runJob, applyEvent, update_job_status, create_job,
          procWrite, failWrite]
      | exited code lines =>
        simp only [hg, hl, Bool.false_eq_true, if_false]
        split_ifs <;>
          simp [runJob, applyEvent, update_job_status, create_job,
            procWrite, failWrite]

/-- C10: process_video returns the basename template_name ++ "_" ++
job_id ++ ".mp4" exactly on runs marked completed — and the stored output
reference equals that basename — and returns none exactly on runs marked
failed. -/
theorem c10_return_matches_status (env : Env) (j v t a : String) :
    (process_video env j v t a).ret = some (outputFilename t j) ∧
      (runJob (process_video env j v t a).events).status = .completed ∧
      (runJob (process_video env j v t a).events).output_path =
        some (outputFilename t j) ∨
    (process_video env j v t a).ret = none ∧
      (runJob (process_video env j v t a).events).status = .failed := by
  rw [process_video_eq]
  by_cases hg : ramGuardTrips env = true
  · simp [hg, runJob, applyEvent, update_job_status, create_job, failWrite]
  · simp only [Bool.not_eq_true] at hg
    by_cases hl : listdirRaises env t = true
    · simp [hg, hl, runJob, applyEvent, update_job_status, create_job,
        procWrite, failWrite]
    · simp only [Bool.not_eq_true] at hl
      cases hff : env.ffmpeg with
      | timeout =>
        simp [hg, hl, runJob, applyEvent, update_job_status, create_job,
          procWrite, failWrite]
      | exited code lines =>
        simp only [hg, hl, Bool.false_eq_true, if_false]
        split_ifs <;>
          simp [runJob, applyEvent, update_job_status, create_job,
            procWrite, failWrite]

/-- C7 counterexample: for template_name "wtfx" the source normalization
removes the non-suffix occurrence of "wtf" and resolves watermark
"x.png", while the claimed suffix-only normalization resolves nothing —
the two resolutions disagree at this input. -/
theorem c7_counterexample_nonsuffix_wtf :
    findWatermark "wtfx" ["x.png"] = some "templates/watermarks/x.png" ∧
    specFindWatermark "wtfx" ["x.png"] = none := by decide

/-- C7 (amended): watermark resolution compares, case-insensitively, the
template name with every occurrence of "wtf" removed (not only a suffix)
as a substring of each filename; the first matching file wins; and when
no file matches the run proceeds identically to a run with an empty
watermark directory, with no watermark overlay step in the filter graph. -/
theorem c7_amended_watermark_resolution :
    (∀ t f rest, findWatermark t (f :: rest) =
      if listContainsSeq (pyLower f).data (stripAllWtfStr (pyLower t)).data
      then some (WATERMARK_DIR ++ "/" ++ f) else findWatermark t rest) ∧
    (∀ t t' l, pyLower t = pyLower t' → findWatermark t l = findWatermark t' l) ∧
    (∀ env j v t a listing, env.listdir = .ok listing →
      findWatermark t listing = none →
      process_video env j v t a =
        process_video { env with listdir := .ok [] } j v t a) ∧
    (∀ env t a, wmPathOf env t = none →
      ∀ p, FilterStep.watermarkOverlay p ∉ filtersOf env t a) := by
  refine ⟨?_, ?_, ?_, ?_⟩
  · intro t f rest
    by_cases h : listContainsSeq (pyLower f).data (stripAllWtfStr (pyLower t)).data
    · simp [findWatermark, List.find?, h]
    · simp [findWatermark, List.find?, h]
  · intro t t' l h
    simp only [findWatermark]
    rw [h]
  · intro env j v t a listing hok hnone
    have hnil : findWatermark t [] = none := rfl
    rw [process_video_eq, process_video_eq]
    by_cases ht : t = "" <;>
      simp [ramGuardTrips, listdirRaises, filtersOf, wmPathOf, hok, hnone,
        hnil, ht]
  · intro env t a h p
    simp only [filtersOf, h]
    split_ifs <;> simp

/-- C7 amended witness: template "Alpha" matches nothing in a directory
holding only "beta.png", and the run equals the empty-directory run. -/
theorem c7_amended_watermark_resolution_witness :
    process_video ⟨none, .ok ["beta.png"], fun _ => false, fun _ => 0, .exited 0 []⟩
        "j" "v" "Alpha" "9:16" =
      process_video ⟨none, .ok [], fun _ => false, fun _ => 0, .exited 0 []⟩
        "j" "v" "Alpha" "9:16" :=
  c7_amended_watermark_resolution.2.2.1
    ⟨none, .ok ["beta.png"], fun _ => false, fun _ => 0, .exited 0 []⟩
    "j" "v" "Alpha" "9:16" ["beta.png"] rfl (by decide)

/-- C8: when the transcoder exits non-zero (guard passed, listing did not
raise), the stored error message is exactly "FFmpeg failed: " followed by
the first 200 characters of the newline-join of the first five retained
error-matching stderr lines — never more than 215 characters, never an
unbounded dump. -/
theorem c8_bounded_error_excerpt
    (env : Env) (j v t a : String) (code : Int) (lines : List String)
    (hg : ramGuardTrips env = false) (hl : listdirRaises env t = false)
    (hf : env.ffmpeg = .exited code lines) (hc : code ≠ 0) :
    (process_video env j v t a).events.getLast? =
      some (failWrite (ffmpegFailMsg lines)) ∧
    ffmpegFailMsg lines =
      "FFmpeg failed: " ++
        pySlice (if (stderrErrors lines).isEmpty then "FFmpeg failed"
                 else String.intercalate "\n" ((stderrErrors lines).take 5)) 200 ∧
    (ffmpegFailMsg lines).length ≤ 215 := by
  refine ⟨?_, rfl, ?_⟩
  · rw [process_video_eq]
    simp [hg, hl, hf, hc]
  · show (("FFmpeg failed: " : String) ++
      pySlice (if (stderrErrors lines).isEmpty then "FFmpeg failed"
               else String.intercalate "\n" ((stderrErrors lines).take 5)) 200).length ≤ 215
    rw [String.length_append]
    have h1 : ("FFmpeg failed: " : String).length = 15 := by decide
    have h2 : ∀ s : String, (pySlice s 200).length ≤ 200 := by
      intro s
      simp only [pySlice, String.length_mk, List.length_take]
      exact Nat.min_le_left _ _
    have h3 := h2 (if (stderrErrors lines).isEmpty then "FFmpeg failed"
      else String.intercalate "\n" ((stderrErrors lines).take 5))
    omega

/-- C8 witness: a concrete non-zero exit with one error line. -/
theorem c8_bounded_error_excerpt_witness :
    (process_video ⟨none, .ok [], fun _ => false, fun _ => 0,
        .exited 1 ["frame dropped", "Error: bad input"]⟩
      "j" "v" "T" "9:16").events.getLast? =
      some (failWrite (ffmpegFailMsg ["frame dropped", "Error: bad input"])) ∧
    (ffmpegFailMsg ["frame dropped", "Error: bad input"]).length ≤ 215 :=
  ⟨(c8_bounded_error_excerpt ⟨none, .ok [], fun _ => false, fun _ => 0,
      .exited 1 ["frame dropped", "Error: bad input"]⟩
      "j" "v" "T" "9:16" 1 ["frame dropped", "Error: bad input"]
      (by decide) (by decide) rfl (by decide)).1,
   (c8_bounded_error_excerpt ⟨none, .ok [], fun _ => false, fun _ => 0,
      .exited 1 ["frame dropped", "Error: bad input"]⟩
      "j" "v" "T" "9:16" 1 ["frame dropped", "Error: bad input"]
      (by decide) (by decide) rfl (by decide)).2.2⟩

/-- C9: a fetch call with more than 5 URLs is rejected with an error
before any download is attempted; a call with 1 to 5 URLs (downloader
importable) produces one result per URL, in order, each computed
independently by download_one on its own URL, so a per-URL failure is
recorded in that result without aborting the remaining URLs. -/
theorem c9_fetch_bounds_and_isolation (env : FetchEnv) (urls : List String) :
    (urls.length > 5 →
      ∃ c m, fetch_videos_from_urls env (some urls) = (.rejected c m, [])) ∧
    (env.ytdlpAvailable = true → 1 ≤ urls.length → urls.length ≤ 5 →
      fetch_videos_from_urls env (some urls) =
        (.ok urls.length
          ((urls.map (download_one env)).filter (·.success)).length
          (urls.map (download_one env)), urls) ∧
      (urls.map (download_one env)).length = urls.length ∧
      ∀ u ∈ urls, ∀ e, env.download u = .error e →
        download_one env u = ⟨u, false, none, none, some e⟩) := by
  constructor
  · intro h6
    by_cases hy : env.ytdlpAvailable = true
    · refine ⟨400, "Maximum 5 URLs at a time (Render free tier limit)", ?_⟩
      have h0 : ¬ urls.length = 0 := by omega
      simp [fetch_videos_from_urls, hy, h0, h6]
    · exact ⟨500, "yt-dlp not installed", by simp [fetch_videos_from_urls, hy]⟩
  · intro hy h1 h5
    have h0 : ¬ urls.length = 0 := by omega
    have h6 : ¬ urls.length > 5 := by omega
    refine ⟨by simp [fetch_videos_from_urls, hy, h0, h6], by simp, ?_⟩
    intro u hu e he
    simp [download_one, he]

/-- C9 witness: six URLs are rejected with no download attempted; a
two-URL call with one failing URL still yields both results. -/
theorem c9_fetch_bounds_and_isolation_witness :
    (∃ c m, fetch_videos_from_urls ⟨true, fun _ => .ok "output/a.mp4"⟩
      (some ["u1", "u2", "u3", "u4", "u5", "u6"]) = (.rejected c m, [])) ∧
    fetch_videos_from_urls
        ⟨true, fun u => if u == "bad" then .error "boom" else .ok "output/a.mp4"⟩
        (some ["bad", "good"]) =
      (.ok (["bad", "good"] : List String).length
        (((["bad", "good"] : List String).map
            (download_one ⟨true, fun u => if u == "bad" then .error "boom"
              else .ok "output/a.mp4"⟩)).filter (·.success)).length
        ((["bad", "good"] : List String).map
          (download_one ⟨true, fun u => if u == "bad" then .error "boom"
            else .ok "output/a.mp4"⟩)), ["bad", "good"]) :=
  ⟨(c9_fetch_bounds_and_isolation ⟨true, fun _ => .ok "output/a.mp4"⟩
      ["u1", "u2", "u3", "u4", "u5", "u6"]).1 (by decide),
   ((c9_fetch_bounds_and_isolation
      ⟨true, fun u => if u == "bad" then .error "boom" else .ok "output/a.mp4"⟩
      ["bad", "good"]).2 rfl (by decide) (by decide)).1⟩

